import Mathlib

/-!
Verification development for the openclaw-codex-ralph iteration orchestrator.

The TypeScript sources are shallowly embedded: pure functions become Lean
functions over `String`/`Nat`/`List`; the asynchronous job loop becomes a
step relation on an explicit state type; filesystem and git reads become
explicit inputs (the value the external query would have returned).
-/

namespace Ralph

/-! ## JavaScript string primitives

`jsIncludes hay needle` models `hay.includes(needle)`, `jsEndsWith` models
`hay.endsWith(needle)`, and `jsToLower` models `String.prototype.toLowerCase`
(all text involved is ASCII, where `Char.toLower` agrees with JS). -/

def charsStart : List Char → List Char → Bool
  | [], _ => true
  | _ :: _, [] => false
  | a :: as, b :: bs => a == b && charsStart as bs

def jsIncludes (hay needle : String) : Bool :=
  hay.toList.tails.any (fun t => charsStart needle.toList t)

def jsEndsWith (hay needle : String) : Bool :=
  charsStart needle.toList.reverse hay.toList.reverse

def jsToLower (s : String) : String :=
  String.mk (s.data.map Char.toLower)

def jsTrim (s : String) : String :=
  String.mk (((s.data.dropWhile Char.isWhitespace).reverse.dropWhile Char.isWhitespace).reverse)

def jsLength (s : String) : Nat :=
  s.data.length

/-! ## Failure Classifier (`categorizeFailure`, part_000 lines 459-469)

The `FailureCategory` union type has seven members; `categorizeFailure`
itself only ever produces six of them (`verification_rejected` is assigned
elsewhere, by the iteration loop, when the verifier rejects). -/

inductive FailureCategory
  | type_error
  | test_failure
  | lint_error
  | build_error
  | timeout
  | verification_rejected
  | unknown
  deriving DecidableEq, Repr

def timeoutPred (lower : String) : Bool :=
  jsIncludes lower "timeout" || jsIncludes lower "exceeded 10 minutes" || jsIncludes lower "timed out"

def typeErrorPred (lower : String) : Bool :=
  jsIncludes lower "error ts" || jsIncludes lower "ts(" ||
    (jsIncludes lower "type" && jsIncludes lower "not assignable") || jsIncludes lower "cannot find name"

def lintErrorPred (lower : String) : Bool :=
  jsIncludes lower "eslint" || jsIncludes lower "prettier" || jsIncludes lower "lint"

def testFailurePred (lower : String) : Bool :=
  jsIncludes lower "assert" || jsIncludes lower "expect(" || jsIncludes lower "test fail" ||
    jsIncludes lower "tests failed" || jsIncludes lower "test suites failed"

def buildErrorPred (lower : String) : Bool :=
  jsIncludes lower "build fail" || jsIncludes lower "bundle" || jsIncludes lower "esbuild" ||
    jsIncludes lower "webpack" || jsIncludes lower "rollup" || jsIncludes lower "vite"

def categorizeFailure (output : String) : FailureCategory :=
  let lower := jsToLower output
  if timeoutPred lower then .timeout
  else if typeErrorPred lower then .type_error
  else if lintErrorPred lower then .lint_error
  else if testFailurePred lower then .test_failure
  else if buildErrorPred lower then .build_error
  else .unknown

/-- The ordered pattern table the classifier's if-chain encodes: checks are
evaluated in this fixed order against the lower-cased text, first match wins. -/
def failureRules : List ((String → Bool) × FailureCategory) :=
  [(timeoutPred, .timeout), (typeErrorPred, .type_error), (lintErrorPred, .lint_error),
   (testFailurePred, .test_failure), (buildErrorPred, .build_error)]

def firstMatch (rules : List ((String → Bool) × FailureCategory)) (dflt : FailureCategory)
    (lower : String) : FailureCategory :=
  match rules with
  | [] => dflt
  | (p, c) :: rest => if p lower then c else firstMatch rest dflt lower

/-! ## Output Verifier (`output-verifier.ts`, listed in SKILL.md lines 480-847)

`getDiffStats`/`getDiffContent` are git queries; here their results
(`diffStats`, `diffContent`) are explicit fields of the verification input. -/

inductive Severity
  | REJECT
  | WARN
  deriving DecidableEq, Repr

structure VerificationCheck where
  name : String
  severity : Severity
  message : String
  deriving DecidableEq, Repr

structure DiffStats where
  filesChanged : Nat
  insertions : Nat
  deletions : Nat
  files : List String
  deriving DecidableEq, Repr

structure DiffStatsSummary where
  filesChanged : Nat
  insertions : Nat
  deletions : Nat
  deriving DecidableEq, Repr

structure StoryText where
  id : String
  title : String
  description : String
  acceptanceCriteria : Option (List String)
  deriving DecidableEq, Repr

structure StructuredResult where
  success : Bool
  summary : String
  files_modified : List String
  deriving DecidableEq, Repr

structure MonitorStats where
  totalMs : Nat
  timeToFirstToolCallMs : Option Nat
  toolCalls : Nat
  fileExplorations : Nat
  fileWrites : Nat
  testRuns : Nat
  errorsHit : Nat
  linesProcessed : Nat
  deriving DecidableEq, Repr

structure CodexVerifierResult where
  toolCalls : Nat
  filesModified : List String
  structuredResult : Option StructuredResult
  stderrStats : Option MonitorStats
  deriving DecidableEq, Repr

structure VerificationInput where
  story : StoryText
  codexResult : CodexVerifierResult
  diffStats : DiffStats
  diffContent : String
  validationOutput : String
  deriving DecidableEq, Repr

structure VerificationResult where
  passed : Bool
  checks : List VerificationCheck
  warnings : List String
  rejectReason : Option String
  diffStats : DiffStatsSummary
  requiresLLMReview : Bool
  deriving DecidableEq, Repr

def CONFIG_EXTENSIONS : List String :=
  [".json", ".yml", ".yaml", ".toml", ".ini", ".env",
   ".config.js", ".config.ts", ".config.mjs", ".config.cjs"]

def DOC_EXTENSIONS : List String := [".md", ".mdx", ".txt", ".rst"]

def isConfigOrDocFile (file : String) : Bool :=
  let lower := jsToLower file
  (CONFIG_EXTENSIONS ++ DOC_EXTENSIONS).any (fun ext => jsEndsWith lower ext)

def isTestFile (file : String) : Bool :=
  let lower := jsToLower file
  jsIncludes lower ".test." || jsIncludes lower ".spec." || jsIncludes lower "__tests__"

def configStoryKeywords : List String :=
  ["config", "build", "setup", "ci/cd", "pipeline", "deploy", "infrastructure",
   "package.json", "tsconfig", "eslint", "prettier", "docker"]

def isConfigOnlyStory (story : StoryText) : Bool :=
  let text := jsToLower (story.title ++ " " ++ story.description)
  configStoryKeywords.any (fun kw => jsIncludes text kw)

def checkEmptyDiff (diffStats : DiffStats) (filesModified : List String) :
    Option VerificationCheck :=
  if filesModified.length == 0 && diffStats.filesChanged == 0 then
    some { name := "empty_diff", severity := .REJECT,
           message := "No files were modified — the agent produced no changes." }
  else none

def checkNoTests (diffStats : DiffStats) (story : StoryText) : Option VerificationCheck :=
  if isConfigOnlyStory story then none
  else if diffStats.files.length > 0 && diffStats.files.all isConfigOrDocFile then none
  else if !(diffStats.files.any isTestFile) && diffStats.filesChanged > 0 then
    some { name := "no_tests", severity := .WARN,
           message := "No test files were modified or created. Consider adding test coverage." }
  else none

def checkZeroToolCalls (toolCalls : Nat) : Option VerificationCheck :=
  if toolCalls == 0 then
    some { name := "zero_tool_calls", severity := .REJECT,
           message := "Agent made zero tool calls — likely a no-op session." }
  else none

def checkConfigOnly (diffStats : DiffStats) (story : StoryText) : Option VerificationCheck :=
  if diffStats.filesChanged == 0 then none
  else if isConfigOnlyStory story then none
  else if diffStats.files.all isConfigOrDocFile then
    some { name := "config_only", severity := .WARN,
           message := "Only config/doc files changed (" ++ String.intercalate ", " diffStats.files ++
             ") but story describes code work." }
  else none

def checkTrivialDiff (diffStats : DiffStats) : Option VerificationCheck :=
  if diffStats.filesChanged == 0 then none
  else
    let totalChanges := diffStats.insertions + diffStats.deletions
    if 0 < totalChanges && totalChanges < 5 then
      some { name := "trivial_diff", severity := .WARN,
             message := "Trivial diff: only " ++ toString totalChanges ++ " line(s) changed (" ++
               toString diffStats.insertions ++ " insertions, " ++ toString diffStats.deletions ++
               " deletions)." }
    else none

def acStopWords : List String :=
  ["should", "must", "when", "then", "that", "this", "with", "from", "have", "been", "will", "given"]

/-- Models `.replace(/[^a-z0-9\s]/g, " ")` applied to an already lower-cased character. -/
def sanitizeChar (c : Char) : Char :=
  if (('a' ≤ c && c ≤ 'z') || ('0' ≤ c && c ≤ '9') || c.isWhitespace) then c else ' '

/-- Models `.split(/\s+/)`: splits at whitespace. The JS regex collapses runs of
whitespace while this version emits empty fragments for them; the caller
filters for length ≥ 4, so the two agree after filtering. -/
def splitWsAux : List Char → List Char → List String
  | [], acc => [String.mk acc.reverse]
  | c :: cs, acc =>
    if c.isWhitespace then String.mk acc.reverse :: splitWsAux cs []
    else splitWsAux cs (c :: acc)

def splitWs (s : String) : List String :=
  splitWsAux s.data []

def acKeyTerms (allCriteria : String) : List String :=
  (((splitWs (String.mk ((jsToLower allCriteria).data.map sanitizeChar))).filter
      (fun w => 4 ≤ jsLength w)).filter
    (fun w => !(acStopWords.contains w)))

/-- Note `matched.length / nouns.length < 0.2` on IEEE doubles coincides with
`5 * matched.length < nouns.length` for all list lengths arising here. -/
def checkAcceptanceCriteriaRelevance (story : StoryText) (diffContent : String)
    (summary : String) : Option VerificationCheck :=
  match story.acceptanceCriteria with
  | none => none
  | some criteria =>
    if criteria.length == 0 then none
    else
      let allCriteria := String.intercalate " " criteria
      let nouns := acKeyTerms allCriteria
      if nouns.length == 0 then none
      else
        let searchSpace := jsToLower (diffContent ++ " " ++ summary)
        let matched := nouns.filter (fun noun => jsIncludes searchSpace noun)
        if 5 * matched.length < nouns.length && 3 ≤ nouns.length then
          some { name := "acceptance_criteria_miss", severity := .WARN,
                 message := "Low acceptance criteria relevance: only " ++
                   toString matched.length ++ "/" ++ toString nouns.length ++
                   " key terms found in diff+summary. Missing: " ++
                   String.intercalate ", "
                     (((nouns.filter (fun n => !(matched.contains n))).take 5)) }
        else none

def checkSelfReportedFailure (structuredResult : Option StructuredResult) :
    Option VerificationCheck :=
  match structuredResult with
  | some r =>
    if r.success == false then
      some { name := "self_reported_failure", severity := .WARN,
             message := "Agent self-reported failure (success=false) but validation passed. Possible incomplete work." }
    else none
  | none => none

/-- The anchored, case-insensitive lazy-summary regexes, enumerated: each
pattern admits exactly the listed lower-cased forms. -/
def lazySummaryForms : List String :=
  ["done", "done.", "completed", "completed.", "implemented", "implemented.",
   "fixed", "fixed.", "update", "update.", "updated", "updated.",
   "change made", "change made.", "changes made", "changes made.",
   "all done", "all done.", "all good", "all good.", "all set", "all set.",
   "task complete", "task complete."]

def matchesLazyPattern (t : String) : Bool :=
  lazySummaryForms.contains (jsToLower t)

/-- Here `checkLazySummary(summary?: string)` takes a `none` argument for the JS
`undefined`; note that `if (!summary) return null` also makes the empty
string pass without firing. -/
def checkLazySummary (summary : Option String) : Option VerificationCheck :=
  match summary with
  | none => none
  | some s =>
    if s == "" then none
    else if jsLength s < 20 then
      some { name := "lazy_summary", severity := .WARN,
             message := "Summary too short (" ++ toString (jsLength s) ++ " chars): \"" ++ s ++ "\"" }
    else if matchesLazyPattern (jsTrim s) then
      some { name := "lazy_summary", severity := .WARN,
             message := "Lazy summary detected: \"" ++ jsTrim s ++ "\"" }
    else none

def checkHeavyExplorationNoWrites (stderrStats : Option MonitorStats) :
    Option VerificationCheck :=
  match stderrStats with
  | none => none
  | some stats =>
    if 5 < stats.fileExplorations && stats.fileWrites == 0 then
      some { name := "heavy_exploration_no_writes", severity := .WARN,
             message := "Agent explored " ++ toString stats.fileExplorations ++
               " files but wrote to none — possible analysis paralysis." }
    else none

def verifyOutput (input : VerificationInput) : VerificationResult :=
  let diffStats := input.diffStats
  let diffContent := input.diffContent
  let summary :=
    match input.codexResult.structuredResult with
    | some r => r.summary
    | none => ""
  let maybeChecks : List (Option VerificationCheck) :=
    [checkEmptyDiff diffStats input.codexResult.filesModified,
     checkNoTests diffStats input.story,
     checkZeroToolCalls input.codexResult.toolCalls,
     checkConfigOnly diffStats input.story,
     checkTrivialDiff diffStats,
     checkAcceptanceCriteriaRelevance input.story diffContent summary,
     checkSelfReportedFailure input.codexResult.structuredResult,
     checkLazySummary (some summary),
     checkHeavyExplorationNoWrites input.codexResult.stderrStats]
  let checks := maybeChecks.filterMap id
  let rejects := checks.filter (fun c => c.severity == .REJECT)
  let warns := checks.filter (fun c => c.severity == .WARN)
  { passed := rejects.length == 0,
    checks := checks,
    warnings := warns.map (fun w => w.message),
    rejectReason :=
      if 0 < rejects.length then some (String.intercalate "; " (rejects.map (fun r => r.message)))
      else none,
    diffStats := { filesChanged := diffStats.filesChanged, insertions := diffStats.insertions,
                   deletions := diffStats.deletions },
    requiresLLMReview := 3 ≤ warns.length }

/-! ## Iteration Runner (`runAndValidateIteration`, part_000 lines 1788-1858,
and `handleIterationSuccess`, part_000 lines 1870-1944)

The agent spawn and the validation command are external processes; their
success flags are inputs. The mutable `iterResult` record is modelled by the
final value it holds when `runAndValidateIteration` returns. `agentRuns`
counts calls to `runCodexIteration` (the source makes exactly one, before
validation and verification). -/

structure RunOutcome where
  success : Bool
  validationPassed : Bool
  verificationPassed : Option Bool
  verificationWarnings : Option (List String)
  rejectReason : Option String
  agentRuns : Nat
  deriving DecidableEq, Repr

def runAndValidateIteration (codexSuccess validationSuccess : Bool)
    (vin : VerificationInput) : RunOutcome :=
  if codexSuccess && validationSuccess then
    let verification := verifyOutput vin
    if verification.passed then
      { success := true, validationPassed := validationSuccess,
        verificationPassed := some true,
        verificationWarnings :=
          if 0 < verification.warnings.length then some verification.warnings else none,
        rejectReason := none, agentRuns := 1 }
    else
      { success := false, validationPassed := validationSuccess,
        verificationPassed := some false,
        verificationWarnings :=
          if 0 < verification.warnings.length then some verification.warnings else none,
        rejectReason := verification.rejectReason, agentRuns := 1 }
  else
    { success := false, validationPassed := validationSuccess, verificationPassed := none,
      verificationWarnings := none, rejectReason := none, agentRuns := 1 }

/-- The function `handleIterationSuccess` runs iff `iterResult.success`; inside it,
`gitCommit` is invoked iff `cfg.autoCommit` (part_000 lines 1898-1902). -/
def commitAttempted (outcome : RunOutcome) (autoCommit : Bool) : Bool :=
  outcome.success && autoCommit

/-! ## Retry Tracker (`StoryRetryTracker`, part_002 lines 12-73) and the
stateless log scan (`shouldSkipStory`, part_002 lines 79-109)

The `Map<string, {attempts, failures}>` is a partial map from story id; the
durable `.ralph-iterations.jsonl` file is `Option (List LogLine)` (`none` =
file absent); a `LogLine` is a blank line, an unparseable line (on which
`JSON.parse` throws, aborting the scan), or a well-formed record's
`storyId`/`success` fields. -/

def DEFAULT_MAX_RETRIES : Nat := 3

structure RetryStats where
  attempts : Nat
  failures : Nat
  deriving DecidableEq, Repr

def TrackerMap := String → Option RetryStats

def emptyTracker : TrackerMap := fun _ => none

def recordAttempt (m : TrackerMap) (storyId : String) (success : Bool) : TrackerMap :=
  let current := (m storyId).getD { attempts := 0, failures := 0 }
  let updated : RetryStats :=
    { attempts := current.attempts + 1,
      failures := if success then current.failures else current.failures + 1 }
  fun k => if k = storyId then some updated else m k

def trackerShouldSkip (m : TrackerMap) (storyId : String) (maxRetries : Nat) : Bool :=
  match m storyId with
  | none => false
  | some stats => maxRetries ≤ stats.failures

def getFailCount (m : TrackerMap) (storyId : String) : Nat :=
  match m storyId with
  | none => 0
  | some stats => stats.failures

/-- The tracker state after a sequence of `recordAttempt(storyId, success)` calls. -/
def runTracker (events : List (String × Bool)) : TrackerMap :=
  events.foldl (fun m e => recordAttempt m e.1 e.2) emptyTracker

inductive LogLine
  | blank
  | malformed
  | entry (storyId : String) (success : Bool)
  deriving DecidableEq, Repr

def LogLine.isMalformed : LogLine → Bool
  | .malformed => true
  | _ => false

def LogLine.isFailureOf (storyId : String) : LogLine → Bool
  | .entry sid success => sid == storyId && success == false
  | _ => false

def logFailCount (storyId : String) (lines : List LogLine) : Nat :=
  (lines.filter (LogLine.isFailureOf storyId)).length

/-- Models `shouldSkipStory(storyId, workdir, maxRetries)`: absent file → `false`;
any unparseable line makes `JSON.parse` throw, the `catch` discards the
count and returns `false`; otherwise count entries with this `storyId` and
`success === false` and compare against `maxRetries`. -/
def shouldSkipStory (storyId : String) (log : Option (List LogLine)) (maxRetries : Nat) : Bool :=
  match log with
  | none => false
  | some lines =>
    if lines.any LogLine.isMalformed then false
    else maxRetries ≤ logFailCount storyId lines

/-- The durable log produced when every recorded attempt wrote exactly one
well-formed entry. -/
def logOfAttempts (events : List (String × Bool)) : List LogLine :=
  events.map (fun e => LogLine.entry e.1 e.2)

/-! ## Sync loop pass (`executeRalphLoopSync`, part_000 lines 2189-2242)

One pass of the `for` loop, restricted to the state the pass mutates:
the run counters, the accumulated results, the progress record, and the
current story's completion flag. Event emission, hivemind writes and the
iteration-log append are side effects outside this state. `stopOnFailure`
only changes whether the loop continues afterwards, not the state below. -/

structure LoopStory where
  id : String
  title : String
  description : String
  priority : Nat
  passes : Bool
  validationCommand : Option String
  acceptanceCriteria : Option (List String)
  issueNumber : Option Nat
  deriving DecidableEq, Repr

structure SyncState where
  iterationsRun : Nat
  storiesCompleted : Nat
  results : List RunOutcome
  progress : List String
  deriving DecidableEq, Repr

def skipNotice (story : LoopStory) : String :=
  "Skipped: " ++ story.title ++ " — exceeded " ++ toString DEFAULT_MAX_RETRIES ++
    " retries, needs human review"

def syncLoopPass (st : SyncState) (story : LoopStory) (log : Option (List LogLine))
    (run : RunOutcome) : SyncState × LoopStory :=
  if shouldSkipStory story.id log DEFAULT_MAX_RETRIES then
    ({ st with progress := st.progress ++ [skipNotice story] }, story)
  else
    let st1 : SyncState := { st with iterationsRun := st.iterationsRun + 1 }
    if run.success then
      ({ st1 with storiesCompleted := st1.storiesCompleted + 1, results := st1.results ++ [run] },
       { story with passes := true })
    else
      ({ st1 with results := st1.results ++ [run] }, story)

/-! ## Job loop status transitions (`executeRalphLoopAsync`, part_000 lines
2255-2374, and the `ralph_loop_cancel` tool, part_000 lines 2733-2747)

The loop's control flow is a labelled step relation over a program counter
and the job's `status` field. `top i` is the head of pass `i` (the `for`
condition followed by the cancellation check), `body i` is inside the pass
(where the awaits allow the external cancel tool to interleave), `finished`
means `executeRalphLoopAsync` has returned. The status assignments at lines
2285, 2290, 2335 and 2355 are unconditional in the source, which the
corresponding steps reproduce. -/

inductive JobStatus
  | running
  | completed
  | failed
  | cancelled
  deriving DecidableEq, Repr

inductive LoopPC
  | top (i : Nat)
  | body (i : Nat)
  | finished
  deriving DecidableEq, Repr

structure LoopState where
  pc : LoopPC
  status : JobStatus
  deriving DecidableEq, Repr

inductive LoopStep (maxIterations : Nat) : LoopState → LoopState → Prop
  /-- The `for` condition fails: fall through to lines 2352-2357, which set
  `job.status = "completed"` without re-checking for cancellation. -/
  | exitLoop (i : Nat) (st : JobStatus) (h : maxIterations ≤ i) :
      LoopStep maxIterations ⟨.top i, st⟩ ⟨.finished, .completed⟩
  /-- Lines 2276-2280: a cancelled status observed at the top of a pass
  returns immediately, leaving the status untouched. -/
  | observeCancel (i : Nat) (h : i < maxIterations) :
      LoopStep maxIterations ⟨.top i, .cancelled⟩ ⟨.finished, .cancelled⟩
  /-- Enter the body of pass `i` when the top-of-pass check saw no cancel. -/
  | enterBody (i : Nat) (st : JobStatus) (h : i < maxIterations) (hne : st ≠ .cancelled) :
      LoopStep maxIterations ⟨.top i, st⟩ ⟨.body i, st⟩
  /-- Lines 2284-2288: context building failed; `job.status = "failed"`. -/
  | ctxError (i : Nat) (st : JobStatus) :
      LoopStep maxIterations ⟨.body i, st⟩ ⟨.finished, .failed⟩
  /-- Lines 2289-2295: no pending story; `job.status = "completed"`. -/
  | allDone (i : Nat) (st : JobStatus) :
      LoopStep maxIterations ⟨.body i, st⟩ ⟨.finished, .completed⟩
  /-- Lines 2300-2303: story skipped; `continue` advances the loop index. -/
  | skipStory (i : Nat) (st : JobStatus) :
      LoopStep maxIterations ⟨.body i, st⟩ ⟨.top (i + 1), st⟩
  /-- Lines 2329-2339: iteration failed with `stopOnFailure`; `job.status = "failed"`. -/
  | stopOnFailure (i : Nat) (st : JobStatus) :
      LoopStep maxIterations ⟨.body i, st⟩ ⟨.finished, .failed⟩
  /-- The pass completed (successfully, or failing without `stopOnFailure`). -/
  | nextPass (i : Nat) (st : JobStatus) :
      LoopStep maxIterations ⟨.body i, st⟩ ⟨.top (i + 1), st⟩
  /-- Lines 2733-2747 (`ralph_loop_cancel`): an external tool call sets
  `job.status = "cancelled"`, guarded by `status === "running"` only. The
  relation admits this step at every program point, over-approximating the
  runtime, where the tool can only interleave while the loop is suspended at
  an await inside a pass body; the reachability trace used against C5 places
  it only at such a body point. -/
  | externalCancel (pc : LoopPC) :
      LoopStep maxIterations ⟨pc, .running⟩ ⟨pc, .cancelled⟩

/-- States reachable from the start of `executeRalphLoopAsync`
(`job.status` is `"running"` when `startLoopJob` creates the job). -/
inductive LoopReachable (maxIterations : Nat) : LoopState → Prop
  | init : LoopReachable maxIterations ⟨.top 0, .running⟩
  | step {s s' : LoopState} : LoopReachable maxIterations s →
      LoopStep maxIterations s s' → LoopReachable maxIterations s'

/-! ## Process registry (`ChildProcessRegistry`, process-helpers.ts lines 7-48)

A child process handle carries Node's `killed` flag — set to `true` as soon
as `kill()` has successfully *sent* a signal, regardless of whether the
process has exited — plus the list of signals delivered to it. `killAll`
is the host-signal handler: a SIGTERM sweep, a 5-second grace period during
which exiting children auto-unregister (`child.once("exit", ...)`), then the
SIGKILL sweep over the children still registered. -/

structure Child where
  killed : Bool
  signals : List String
  deriving DecidableEq, Repr

def childKill (c : Child) (sig : String) : Child :=
  { killed := true, signals := c.signals ++ [sig] }

def sigtermSweep (children : List Child) : List Child :=
  children.map (fun c => if !c.killed then childKill c "SIGTERM" else c)

def sigkillSweep (children : List Child) : List Child :=
  children.map (fun c => if !c.killed then childKill c "SIGKILL" else c)

/-- Models `killAll()`: `exitsDuringGrace` tells which children exit (and hence
auto-unregister) within the 5-second window between the two sweeps; the
returned list is the registry contents afterwards. -/
def killAll (children : List Child) (exitsDuringGrace : Child → Bool) : List Child :=
  if children.length == 0 then children
  else
    let afterTerm := sigtermSweep children
    let survivors := afterTerm.filter (fun c => !exitsDuringGrace c)
    sigkillSweep survivors

/-! ## Stall monitor (`monitorProgress`, process-helpers.ts lines 56-96)

The stdout stream is a list of (gap in ms, line) pairs: `gap` milliseconds
elapse, then the line arrives; `finalGap` milliseconds then elapse after the
last line. A line is either unparseable (ignored by the `catch`) or a parsed
JSON object with a `type` field; only `type === "item.completed"` resets the
timer. `remaining = some r` means the pending `setTimeout` fires in `r` ms;
after it fires no timer is pending until the next qualifying line. -/

def resolveStallTimeout (stallTimeoutMs : Option Nat) : Nat :=
  stallTimeoutMs.getD 120000

inductive StreamLine
  | notJson
  | json (tp : String)
  deriving DecidableEq, Repr

def qualifies : StreamLine → Bool
  | .json tp => tp == "item.completed"
  | .notJson => false

structure MonitorState where
  remaining : Option Nat
  stallFires : Nat
  deriving DecidableEq, Repr

def elapse (st : MonitorState) (ms : Nat) : MonitorState :=
  match st.remaining with
  | none => st
  | some r =>
    if r ≤ ms then { remaining := none, stallFires := st.stallFires + 1 }
    else { remaining := some (r - ms), stallFires := st.stallFires }

def onLine (timeoutMs : Nat) (st : MonitorState) (line : StreamLine) : MonitorState :=
  if qualifies line then { st with remaining := some timeoutMs } else st

def monitorStep (timeoutMs : Nat) (st : MonitorState) (ev : Nat × StreamLine) : MonitorState :=
  onLine timeoutMs (elapse st ev.1) ev.2

/-- Runs `monitorProgress` over a finite stream: the initial `resetStallTimer()`
arms the timer, each event is processed in arrival order, and `finalGap`
milliseconds pass after the last line. -/
def runMonitor (timeoutMs : Nat) (events : List (Nat × StreamLine)) (finalGap : Nat) :
    MonitorState :=
  elapse (events.foldl (monitorStep timeoutMs) { remaining := some timeoutMs, stallFires := 0 })
    finalGap

/-- A verification input on which the gate rejects: the agent reported no
modified files, the diff is empty, and it made zero tool calls. -/
def sampleRejectInput : VerificationInput :=
  { story := { id := "s1", title := "Add auth", description := "Implement authentication",
               acceptanceCriteria := none },
    codexResult := { toolCalls := 0, filesModified := [], structuredResult := none,
                     stderrStats := none },
    diffStats := { filesChanged := 0, insertions := 0, deletions := 0, files := [] },
    diffContent := "",
    validationOutput := "" }

/-- A pending story used by concrete witnesses. -/
def witnessStory : LoopStory :=
  { id := "s1", title := "Add auth", description := "Implement authentication", priority := 1,
    passes := false, validationCommand := none, acceptanceCriteria := none, issueNumber := none }

/-- An iteration log holding three failure entries for story "s1". -/
def threeFailLog : List LogLine :=
  [LogLine.entry "s1" false, LogLine.entry "s1" false, LogLine.entry "s1" false]

/-! # Theorems -/

/-- C2 counterexample: the claim "any string containing both `lint` and `assert`
classifies as lint_error" is false as stated — a string that additionally matches
the earlier timeout check classifies as timeout, because timeout is checked
before lint_error. -/
theorem categorizeFailure_lint_assert_not_universal :
    jsIncludes (jsToLower "Timed out running lint: assert failed") "lint" = true ∧
    jsIncludes (jsToLower "Timed out running lint: assert failed") "assert" = true ∧
    categorizeFailure "Timed out running lint: assert failed" = FailureCategory.timeout ∧
    categorizeFailure "Timed out running lint: assert failed" ≠ FailureCategory.lint_error := by
  refine ⟨by decide, by decide, by decide, by decide⟩

/-- C2 (amended): `categorizeFailure` always returns one of the six categories
timeout, type_error, lint_error, test_failure, build_error, unknown; it equals a
first-match scan of the fixed ordered rule table over the lower-cased text; and a
string containing both `lint` and `assert` classifies as lint_error provided it
does not already match one of the earlier checks (timeout, type_error), because
lint is checked before test_failure. -/
theorem categorizeFailure_six_categories_fixed_order (s : String) :
    categorizeFailure s ∈ [FailureCategory.timeout, FailureCategory.type_error,
      FailureCategory.lint_error, FailureCategory.test_failure, FailureCategory.build_error,
      FailureCategory.unknown] ∧
    categorizeFailure s = firstMatch failureRules FailureCategory.unknown (jsToLower s) ∧
    (jsIncludes (jsToLower s) "lint" = true → jsIncludes (jsToLower s) "assert" = true →
      timeoutPred (jsToLower s) = false → typeErrorPred (jsToLower s) = false →
      categorizeFailure s = FailureCategory.lint_error) := by
  refine ⟨?_, rfl, ?_⟩
  · cases h1 : timeoutPred (jsToLower s) <;>
    cases h2 : typeErrorPred (jsToLower s) <;>
    cases h3 : lintErrorPred (jsToLower s) <;>
    cases h4 : testFailurePred (jsToLower s) <;>
    cases h5 : buildErrorPred (jsToLower s) <;>
      simp [categorizeFailure, h1, h2, h3, h4, h5]
  · intro hlint _ htimeout htype
    have h3 : lintErrorPred (jsToLower s) = true := by
      simp [lintErrorPred, hlint]
    simp [categorizeFailure, htimeout, htype, h3]

/-- Witness for C2's amended theorem at the concrete input "lint assert". -/
theorem categorizeFailure_six_categories_fixed_order_witness :
    categorizeFailure "lint assert" = FailureCategory.lint_error :=
  (categorizeFailure_six_categories_fixed_order "lint assert").2.2
    (by decide) (by decide) (by decide) (by decide)

/-- C3: `verifyOutput` aggregation — `passed` holds iff no REJECT-severity
check fired, `requiresLLMReview` holds iff at least 3 WARN-severity checks
fired, and whenever some REJECT check fired, `rejectReason` joins all REJECT
messages (separated by "; "). -/
theorem verifyOutput_aggregation (input : VerificationInput) :
    ((verifyOutput input).passed = true ↔
      ∀ c ∈ (verifyOutput input).checks, c.severity ≠ Severity.REJECT) ∧
    ((verifyOutput input).requiresLLMReview = true ↔
      3 ≤ ((verifyOutput input).checks.filter (fun c => c.severity == Severity.WARN)).length) ∧
    ((∃ c ∈ (verifyOutput input).checks, c.severity = Severity.REJECT) →
      (verifyOutput input).rejectReason = some (String.intercalate "; "
        (((verifyOutput input).checks.filter (fun c => c.severity == Severity.REJECT)).map
          (fun c => c.message)))) := by
  have key : ∀ checks : List VerificationCheck,
      (∃ c ∈ checks, c.severity = Severity.REJECT) →
      0 < (checks.filter (fun c => c.severity == Severity.REJECT)).length := by
    intro checks h
    obtain ⟨c, hc, hsev⟩ := h
    have hm : c ∈ checks.filter (fun c => c.severity == Severity.REJECT) := by
      simp [List.mem_filter, hc, hsev]
    exact List.length_pos.mpr (List.ne_nil_of_mem hm)
  simp only [verifyOutput]
  refine ⟨?_, ?_, ?_⟩
  · simp [List.length_eq_zero, List.filter_eq_nil_iff]
  · simp
  · intro h
    rw [if_pos (key _ h)]

/-- Witness for C3 at a concrete rejecting input. -/
theorem verifyOutput_aggregation_witness :
    (verifyOutput sampleRejectInput).rejectReason = some (String.intercalate "; "
      (((verifyOutput sampleRejectInput).checks.filter
        (fun c => c.severity == Severity.REJECT)).map (fun c => c.message))) :=
  (verifyOutput_aggregation sampleRejectInput).2.2 (by decide)

/-- C7 counterexample: the claim says lazy_summary fires when the summary is
missing, but `checkLazySummary` returns no check for a missing (or empty)
summary — `if (!summary) return null` — exactly as its own unit test
("passes when no summary") expects. -/
theorem checkLazySummary_never_fires_when_missing :
    checkLazySummary none = none ∧ checkLazySummary (some "") = none := ⟨rfl, rfl⟩

/-- C7 (amended): lazy_summary fires — always with severity WARN — iff a
summary is present and non-empty and is either shorter than 20 characters or
matches one of the canned low-effort phrases (case-insensitive, anchored,
after trimming); a missing or empty summary never fires it. -/
theorem checkLazySummary_fires_iff (summary : Option String) :
    ((checkLazySummary summary).isSome ↔
      ∃ s, summary = some s ∧ s ≠ "" ∧
        (jsLength s < 20 ∨ matchesLazyPattern (jsTrim s) = true)) ∧
    (∀ c, checkLazySummary summary = some c →
      c.severity = Severity.WARN ∧ c.name = "lazy_summary") := by
  cases summary with
  | none => simp [checkLazySummary]
  | some s =>
    constructor
    · simp only [checkLazySummary]
      split_ifs with h1 h2 h3 <;> simp_all
    · intro c hc
      simp only [checkLazySummary] at hc
      split_ifs at hc
      all_goals first
        | exact Option.noConfusion hc
        | (injection hc with h; subst h; exact ⟨rfl, rfl⟩)

/-- Witness for C7's amended theorem at the concrete summary "Done.". -/
theorem checkLazySummary_fires_iff_witness :
    (checkLazySummary (some "Done.")).isSome :=
  (checkLazySummary_fires_iff (some "Done.")).1.mpr
    ⟨"Done.", rfl, by decide, Or.inl (by decide)⟩

/-- C1: a commit is attempted only when the validation command succeeded, the
output verification passed, and auto-commit is enabled; and when the agent
run and validation both succeeded but verification rejected, the iteration's
success flag is flipped to false, the verifier's reject reason is recorded,
and the agent is not re-run (exactly one agent invocation). -/
theorem commit_gated_on_validation_and_verification (codexSuccess validationSuccess : Bool)
    (vin : VerificationInput) (autoCommit : Bool) :
    (commitAttempted (runAndValidateIteration codexSuccess validationSuccess vin) autoCommit =
        true →
      validationSuccess = true ∧ (verifyOutput vin).passed = true ∧ autoCommit = true) ∧
    (codexSuccess = true → validationSuccess = true → (verifyOutput vin).passed = false →
      (runAndValidateIteration codexSuccess validationSuccess vin).success = false ∧
      (runAndValidateIteration codexSuccess validationSuccess vin).rejectReason =
        (verifyOutput vin).rejectReason ∧
      (runAndValidateIteration codexSuccess validationSuccess vin).verificationPassed =
        some false ∧
      (runAndValidateIteration codexSuccess validationSuccess vin).agentRuns = 1) := by
  cases codexSuccess <;> cases validationSuccess <;>
    cases hp : (verifyOutput vin).passed <;>
      simp [runAndValidateIteration, commitAttempted, hp]

/-- Witness for C1 at a concrete rejecting verification input. -/
theorem commit_gated_witness :
    (runAndValidateIteration true true sampleRejectInput).success = false ∧
    (runAndValidateIteration true true sampleRejectInput).rejectReason =
      (verifyOutput sampleRejectInput).rejectReason ∧
    (runAndValidateIteration true true sampleRejectInput).verificationPassed = some false ∧
    (runAndValidateIteration true true sampleRejectInput).agentRuns = 1 :=
  (commit_gated_on_validation_and_verification true true sampleRejectInput true).2
    rfl rfl (by decide)

/-- One `recordAttempt` call changes the failure count for `k` by 1 exactly
when the attempt is for `k` and failed. -/
theorem getFailCount_record (m : TrackerMap) (sid : String) (b : Bool) (k : String) :
    getFailCount (recordAttempt m sid b) k =
      getFailCount m k + (if sid == k && b == false then 1 else 0) := by
  simp only [recordAttempt, getFailCount]
  by_cases hk : k = sid
  · subst hk
    cases b <;> cases hm : m k <;> simp [hm]
  · have h1 : (sid == k) = false := by
      simp only [beq_eq_false_iff_ne, ne_eq]
      exact fun h => hk h.symm
    simp [hk, h1]

/-- Folding a sequence of attempts adds exactly the number of failed attempts
for `k` to the failure count. -/
theorem getFailCount_foldl (events : List (String × Bool)) (m : TrackerMap) (k : String) :
    getFailCount (events.foldl (fun m e => recordAttempt m e.1 e.2) m) k =
      getFailCount m k + (events.filter (fun e => e.1 == k && e.2 == false)).length := by
  induction events generalizing m with
  | nil => simp
  | cons e rest ih =>
    rw [List.foldl_cons, ih, getFailCount_record, List.filter_cons]
    cases hp : (e.1 == k && e.2 == false)
    · simp
    · simp
      omega

/-- The log scan counts exactly the failed attempts for `k` when every
attempt wrote one well-formed entry. -/
theorem logFailCount_logOfAttempts (events : List (String × Bool)) (k : String) :
    logFailCount k (logOfAttempts events) =
      (events.filter (fun e => e.1 == k && e.2 == false)).length := by
  simp only [logFailCount, logOfAttempts, List.filter_map]
  rw [List.length_map]
  rfl

/-- A log consisting solely of well-formed entries has no malformed line. -/
theorem logOfAttempts_no_malformed :
    ∀ events : List (String × Bool), (logOfAttempts events).any LogLine.isMalformed = false
  | [] => rfl
  | e :: rest => by
    have ih := logOfAttempts_no_malformed rest
    simp only [logOfAttempts, List.map_cons, List.any_cons] at ih ⊢
    simpa [LogLine.isMalformed] using ih

/-- C4 counterexample: with a max-retries bound of 0, a story with no recorded
attempts is not skipped by the live tracker (`if (!stats) return false`) but
is skipped by the log scan (`0 >= 0`), even though the two failure counts
agree; so the claimed consequence fails at this bound. -/
theorem tracker_log_scan_disagree_at_zero_max :
    getFailCount (runTracker []) "s1" = logFailCount "s1" (logOfAttempts []) ∧
    trackerShouldSkip (runTracker []) "s1" 0 = false ∧
    shouldSkipStory "s1" (some (logOfAttempts [])) 0 = true := by decide

/-- C4 (amended): for every story and sequence of recorded attempts, the
in-memory tracker's failure count equals the count the stateless log scan
computes from a log with exactly one well-formed entry per attempt; and for
any max-retries bound of at least 1 (the configured default is 3) the two
implementations reach the same skip decision. -/
theorem tracker_matches_log_scan (events : List (String × Bool)) (sid : String)
    (maxRetries : Nat) :
    getFailCount (runTracker events) sid = logFailCount sid (logOfAttempts events) ∧
    (1 ≤ maxRetries →
      trackerShouldSkip (runTracker events) sid maxRetries =
        shouldSkipStory sid (some (logOfAttempts events)) maxRetries) := by
  have hcount : getFailCount (runTracker events) sid =
      logFailCount sid (logOfAttempts events) := by
    rw [logFailCount_logOfAttempts]
    simpa [getFailCount, emptyTracker] using getFailCount_foldl events emptyTracker sid
  refine ⟨hcount, fun hmax => ?_⟩
  rw [shouldSkipStory]
  rw [logOfAttempts_no_malformed]
  simp only [Bool.false_eq_true, if_false]
  rw [← hcount]
  rw [trackerShouldSkip, getFailCount]
  cases hm : runTracker events sid with
  | none =>
    have : ¬(maxRetries ≤ 0) := by omega
    simp [this]
  | some stats => rfl

/-- Witness for C4's amended theorem on a concrete attempt history. -/
theorem tracker_matches_log_scan_witness :
    trackerShouldSkip (runTracker [("s1", false), ("s2", true), ("s1", false), ("s1", false)])
        "s1" 3 =
      shouldSkipStory "s1"
        (some (logOfAttempts [("s1", false), ("s2", true), ("s1", false), ("s1", false)])) 3 :=
  (tracker_matches_log_scan [("s1", false), ("s2", true), ("s1", false), ("s1", false)]
    "s1" 3).2 (by decide)

/-- C10: `shouldSkipStory` returns false when the iteration log file does not
exist, and returns false whenever any malformed line is present — the
`JSON.parse` throw aborts the whole count — no matter how many well-formed
failure entries for the story the log contains. -/
theorem shouldSkipStory_error_handling (sid : String) (maxRetries : Nat)
    (lines : List LogLine) :
    shouldSkipStory sid none maxRetries = false ∧
    (LogLine.malformed ∈ lines → shouldSkipStory sid (some lines) maxRetries = false) := by
  refine ⟨rfl, fun h => ?_⟩
  have hm : lines.any LogLine.isMalformed = true :=
    List.any_eq_true.mpr ⟨_, h, rfl⟩
  simp [shouldSkipStory, hm]

/-- Witness for C10: three well-formed failure entries plus one malformed
line still yield "do not skip". -/
theorem shouldSkipStory_error_handling_witness :
    shouldSkipStory "s1"
      (some [LogLine.entry "s1" false, LogLine.entry "s1" false, LogLine.entry "s1" false,
        LogLine.malformed]) 3 = false :=
  (shouldSkipStory_error_handling "s1" 3
    [LogLine.entry "s1" false, LogLine.entry "s1" false, LogLine.entry "s1" false,
      LogLine.malformed]).2 (by decide)

/-- C6: when the retry policy says the next story must be skipped, a loop
pass leaves the iteration counter, the accumulated results and the
completed-story count unchanged, appends the human-readable skip notice to
the progress record, and leaves the story (in particular its completion
flag) untouched. -/
theorem skip_pass_consumes_no_iteration_slot (st : SyncState) (story : LoopStory)
    (log : Option (List LogLine)) (run : RunOutcome)
    (h : shouldSkipStory story.id log DEFAULT_MAX_RETRIES = true) :
    (syncLoopPass st story log run).1.iterationsRun = st.iterationsRun ∧
    (syncLoopPass st story log run).1.progress = st.progress ++ [skipNotice story] ∧
    (syncLoopPass st story log run).1.results = st.results ∧
    (syncLoopPass st story log run).1.storiesCompleted = st.storiesCompleted ∧
    (syncLoopPass st story log run).2 = story ∧
    (syncLoopPass st story log run).2.passes = story.passes := by
  simp [syncLoopPass, h]

/-- Witness for C6 on a concrete skipped pass. -/
theorem skip_pass_witness :
    (syncLoopPass ⟨0, 0, [], []⟩ witnessStory (some threeFailLog)
        (runAndValidateIteration false false sampleRejectInput)).1.iterationsRun = 0 ∧
    (syncLoopPass ⟨0, 0, [], []⟩ witnessStory (some threeFailLog)
        (runAndValidateIteration false false sampleRejectInput)).2.passes = false := by
  have h := skip_pass_consumes_no_iteration_slot ⟨0, 0, [], []⟩ witnessStory
    (some threeFailLog) (runAndValidateIteration false false sampleRejectInput) (by decide)
  exact ⟨h.1, by rw [h.2.2.2.2.2]; rfl⟩

/-- In any reachable loop state, a completed or failed status implies the
loop has already returned: the loop itself sets those statuses only on exit. -/
theorem loop_terminal_status_at_finished (maxIterations : Nat) {s : LoopState}
    (hr : LoopReachable maxIterations s) :
    s.status = JobStatus.completed ∨ s.status = JobStatus.failed → s.pc = LoopPC.finished := by
  induction hr with
  | init => intro h; rcases h with h | h <;> exact absurd h (by decide)
  | step hr hstep ih => cases hstep <;> simp_all

/-- C5 counterexample: an externally-set terminal status is later changed by
the loop, on a schedule the Node runtime realizes. With `maxIterations = 1`,
the last (only) pass enters its body and suspends at an await (the first is
`buildIterationContext`, then the iteration's own awaits); `ralph_loop_cancel`
runs there, sees `status === "running"`, and sets `cancelled`. The pass then
completes, the `for` condition fails, and the post-loop epilogue overwrites
the terminal status `cancelled` with `completed` without re-checking for
cancellation. -/
theorem job_status_cancelled_overwritten :
    LoopReachable 1 ⟨LoopPC.top 1, JobStatus.cancelled⟩ ∧
    LoopStep 1 ⟨LoopPC.top 1, JobStatus.cancelled⟩ ⟨LoopPC.finished, JobStatus.completed⟩ ∧
    JobStatus.cancelled ≠ JobStatus.completed :=
  ⟨LoopReachable.step
    (LoopReachable.step
      (LoopReachable.step LoopReachable.init
        (LoopStep.enterBody 0 JobStatus.running (by decide) (by decide)))
      (LoopStep.externalCancel (LoopPC.body 0)))
    (LoopStep.nextPass 0 JobStatus.cancelled),
   LoopStep.exitLoop 1 JobStatus.cancelled (Nat.le_refl 1),
   by decide⟩

/-- C5 (amended): status transitions of a reachable job are disciplined —
a completed or failed status (which only the loop sets, as it returns)
is never changed afterwards; and any status change is either the external
cancel moving running to cancelled in place, or a loop step that ends the
loop with completed or failed. The latter can overwrite an externally-set
cancelled status, because cancellation is observed only at the top of each
pass. -/
theorem job_status_transition_discipline (maxIterations : Nat) (s s' : LoopState)
    (hr : LoopReachable maxIterations s) (h : LoopStep maxIterations s s') :
    ((s.status = JobStatus.completed ∨ s.status = JobStatus.failed) →
      s'.status = s.status) ∧
    (s.status ≠ s'.status →
      (s.status = JobStatus.running ∧ s'.status = JobStatus.cancelled ∧ s'.pc = s.pc) ∨
      (s'.pc = LoopPC.finished ∧
        (s'.status = JobStatus.completed ∨ s'.status = JobStatus.failed))) := by
  constructor
  · intro hterm
    have hpc := loop_terminal_status_at_finished maxIterations hr hterm
    cases h <;> simp_all
  · intro hne
    cases h <;> simp_all

/-- Witness for C5's amended theorem at a concrete reachable step (the
context-error step of pass 0 of a running job). -/
theorem job_status_transition_discipline_witness :
    (((⟨LoopPC.body 0, JobStatus.running⟩ : LoopState).status = JobStatus.running ∧
      (⟨LoopPC.finished, JobStatus.failed⟩ : LoopState).status = JobStatus.cancelled ∧
      (⟨LoopPC.finished, JobStatus.failed⟩ : LoopState).pc =
        (⟨LoopPC.body 0, JobStatus.running⟩ : LoopState).pc) ∨
    ((⟨LoopPC.finished, JobStatus.failed⟩ : LoopState).pc = LoopPC.finished ∧
      ((⟨LoopPC.finished, JobStatus.failed⟩ : LoopState).status = JobStatus.completed ∨
        (⟨LoopPC.finished, JobStatus.failed⟩ : LoopState).status = JobStatus.failed))) :=
  (job_status_transition_discipline 1 _ _
    (LoopReachable.step LoopReachable.init
      (LoopStep.enterBody 0 JobStatus.running (by decide) (by decide)))
    (LoopStep.ctxError 0 JobStatus.running)).2 (by decide)

/-- C8 (failing input): one registered child process that never exits. The
SIGTERM sweep sets Node's `killed` flag (it records that a signal was sent,
not that the process exited), so the 5-second SIGKILL sweep — whose guard is
`!child.killed` — skips the still-alive survivor: no SIGKILL is ever sent,
contradicting the comment "After 5s, send SIGKILL to any survivors". -/
theorem killAll_sigterm_survivor_never_sigkilled :
    killAll [{ killed := false, signals := [] }] (fun _ => false) =
      [{ killed := true, signals := ["SIGTERM"] }] ∧
    ∀ c ∈ killAll [{ killed := false, signals := [] }] (fun _ => false),
      c.signals.contains "SIGKILL" = false := by decide

/-- The function `elapse` preserves the monitor measure `stallFires + (1 if a timer is
pending)`: a firing consumes the pending timer. -/
theorem monitorMeasure_elapse (st : MonitorState) (ms : Nat) :
    (elapse st ms).stallFires + (if (elapse st ms).remaining.isSome then 1 else 0) =
      st.stallFires + (if st.remaining.isSome then 1 else 0) := by
  cases hr : st.remaining with
  | none => simp [elapse, hr]
  | some r =>
    by_cases hle : r ≤ ms <;> simp [elapse, hr, hle]

/-- One monitor step raises the measure by at most 1, and only on a
qualifying (timer-resetting) line. -/
theorem monitorMeasure_step (timeoutMs : Nat) (st : MonitorState) (ev : Nat × StreamLine) :
    (monitorStep timeoutMs st ev).stallFires +
        (if (monitorStep timeoutMs st ev).remaining.isSome then 1 else 0) ≤
      st.stallFires + (if st.remaining.isSome then 1 else 0) +
        (if qualifies ev.2 then 1 else 0) := by
  unfold monitorStep onLine
  rw [← monitorMeasure_elapse st ev.1]
  by_cases hq : qualifies ev.2 = true <;> simp [hq]

/-- The measure after processing a stream is bounded by the initial measure
plus the number of qualifying lines. -/
theorem monitorMeasure_foldl (timeoutMs : Nat) (events : List (Nat × StreamLine))
    (st : MonitorState) :
    (events.foldl (monitorStep timeoutMs) st).stallFires +
        (if (events.foldl (monitorStep timeoutMs) st).remaining.isSome then 1 else 0) ≤
      st.stallFires + (if st.remaining.isSome then 1 else 0) +
        (events.filter (fun e => qualifies e.2)).length := by
  induction events generalizing st with
  | nil => simp
  | cons e rest ih =>
    rw [List.foldl_cons, List.filter_cons]
    have h1 := monitorMeasure_step timeoutMs st e
    have h2 := ih (monitorStep timeoutMs st e)
    cases hq : qualifies e.2 <;> simp [hq] at h1 ⊢ <;> omega

/-- With no qualifying line, non-qualifying traffic never re-arms a fired
timer. -/
theorem monitor_foldl_none (timeoutMs : Nat) :
    ∀ (events : List (Nat × StreamLine)), (∀ e ∈ events, qualifies e.2 = false) →
    ∀ (f : Nat), events.foldl (monitorStep timeoutMs) ⟨none, f⟩ = ⟨none, f⟩
  | [], _, f => by simp
  | e :: rest, h, f => by
    have hq : qualifies e.2 = false := h e (List.mem_cons_self e rest)
    have hrest : ∀ x ∈ rest, qualifies x.2 = false := fun x hx => h x (List.mem_cons_of_mem e hx)
    have hstep : monitorStep timeoutMs ⟨none, f⟩ e = ⟨none, f⟩ := by
      simp [monitorStep, elapse, onLine, hq]
    rw [List.foldl_cons, hstep, monitor_foldl_none timeoutMs rest hrest f]

/-- With no qualifying line, an armed timer either fires exactly once (when
the elapsed time reaches it) or keeps counting down. -/
theorem monitor_foldl_no_qualifying (timeoutMs : Nat) :
    ∀ (events : List (Nat × StreamLine)), (∀ e ∈ events, qualifies e.2 = false) →
    ∀ (r f : Nat), 1 ≤ r →
    events.foldl (monitorStep timeoutMs) ⟨some r, f⟩ =
      if r ≤ (events.map Prod.fst).sum then ⟨none, f + 1⟩
      else ⟨some (r - (events.map Prod.fst).sum), f⟩
  | [], _, r, f, hr => by
    have : ¬(r ≤ 0) := by omega
    simp [this]
  | e :: rest, h, r, f, hr => by
    have hq : qualifies e.2 = false := h e (List.mem_cons_self e rest)
    have hrest : ∀ x ∈ rest, qualifies x.2 = false := fun x hx => h x (List.mem_cons_of_mem e hx)
    rw [List.foldl_cons]
    by_cases hle : r ≤ e.1
    · have hstep : monitorStep timeoutMs ⟨some r, f⟩ e = ⟨none, f + 1⟩ := by
        simp [monitorStep, elapse, onLine, hle, hq]
      have hsum : r ≤ (List.map Prod.fst (e :: rest)).sum := by
        simp only [List.map_cons, List.sum_cons]
        omega
      rw [hstep, monitor_foldl_none timeoutMs rest hrest (f + 1), if_pos hsum]
    · have hstep : monitorStep timeoutMs ⟨some r, f⟩ e = ⟨some (r - e.1), f⟩ := by
        simp only [monitorStep, elapse, onLine, hq, Bool.false_eq_true, if_false]
        rw [if_neg hle]
      have hlt : e.1 < r := Nat.lt_of_not_le hle
      rw [hstep, monitor_foldl_no_qualifying timeoutMs rest hrest (r - e.1) f (by omega)]
      simp only [List.map_cons, List.sum_cons]
      by_cases h2 : r - e.1 ≤ (List.map Prod.fst rest).sum
      · have h2a : r ≤ e.1 + (List.map Prod.fst rest).sum := by omega
        rw [if_pos h2, if_pos h2a]
      · have h2a : ¬(r ≤ e.1 + (List.map Prod.fst rest).sum) := by omega
        have h2b : r - e.1 - (List.map Prod.fst rest).sum =
            r - (e.1 + (List.map Prod.fst rest).sum) := by omega
        rw [if_neg h2, if_neg h2a, h2b]

/-- C9: the stall window defaults to 120000 ms; over any monitored stream
the stall callback fires at most once per stall episode (at most one more
firing than there are qualifying `item.completed` resets); and when no
qualifying progress event arrives at all and the window elapses, it fires
exactly once — not repeatedly. -/
theorem stall_callback_once_per_episode (timeoutMs : Nat)
    (events : List (Nat × StreamLine)) (finalGap : Nat) :
    resolveStallTimeout none = 120000 ∧
    (runMonitor timeoutMs events finalGap).stallFires ≤
      1 + (events.filter (fun e => qualifies e.2)).length ∧
    (1 ≤ timeoutMs → (∀ e ∈ events, qualifies e.2 = false) →
      timeoutMs ≤ (events.map Prod.fst).sum + finalGap →
      (runMonitor timeoutMs events finalGap).stallFires = 1) := by
  refine ⟨rfl, ?_, ?_⟩
  · have h1 := monitorMeasure_foldl timeoutMs events ⟨some timeoutMs, 0⟩
    have h2 := monitorMeasure_elapse
      (events.foldl (monitorStep timeoutMs) ⟨some timeoutMs, 0⟩) finalGap
    unfold runMonitor
    simp only [Option.isSome_some, if_true] at h1
    omega
  · intro ht hq htime
    unfold runMonitor
    rw [monitor_foldl_no_qualifying timeoutMs events hq timeoutMs 0 ht]
    by_cases hs : timeoutMs ≤ (events.map Prod.fst).sum
    · rw [if_pos hs]
      rfl
    · rw [if_neg hs]
      have : timeoutMs - (events.map Prod.fst).sum ≤ finalGap := by omega
      simp [elapse, this]

/-- Witness for C9 at the default window with a silent stream. -/
theorem stall_callback_once_witness :
    (runMonitor 120000 [] 120000).stallFires = 1 :=
  (stall_callback_once_per_episode 120000 [] 120000).2.2 (by decide) (by decide) (by decide)

end Ralph
